import Mathlib

/-!
Verification development for the evalml AutoML search core.

Part 1 embeds `evalml/automl/engine/dask_engine.py` directly from the source.
Part 2 models the AutoML search controller (`AutoBinaryClassificationSearch` /
`AutoMulticlassClassificationSearch`), whose implementation is exercised by
`evalml/tests/automl_tests/test_auto_classification_search.py`; those
definitions are modelled from the specification, as marked in their doc
comments.
-/

/-! ## Part 1: the dask execution engine, embedded from the source -/

/-- Opaque handle standing for a training-data object (`X_train`, `y_train`,
held-out `X`/`y`). The engine only forwards these handles into job payloads. -/
structure DataRef where
  ref_id : ℕ
deriving DecidableEq

/-- A pipeline instance as seen by the dask engine: the engine reads only
`custom_name` (in `submit_scoring_job`) and otherwise forwards the object. -/
structure PipelineInstance where
  custom_name : String
deriving DecidableEq

/-- The `automl_data` configuration bundle whose fields `dask_engine.py`
reads: `X_train`, `y_train`, `optimize_thresholds`, `objective`. -/
structure AutoMLData where
  X_train : DataRef
  y_train : DataRef
  optimize_thresholds : Bool
  objective : String
deriving DecidableEq

/-- The payload handed to `client.submit`: which function is submitted and
with which arguments, following the three call sites in `dask_engine.py`. -/
inductive DaskJob
  | trainAndScorePipeline (pipeline : PipelineInstance) (automl_data : AutoMLData)
      (full_X_train full_y_train : DataRef)
  | trainPipeline (pipeline : PipelineInstance) (X y : DataRef)
      (optimize_thresholds : Bool) (objective : String)
  | scorePipeline (pipeline : PipelineInstance) (X y : DataRef) (objectives : List String)
deriving DecidableEq

/-- The dask client; `submit` hands back a future for the submitted job,
modelled as the job payload itself. -/
structure DaskClient where
  client_id : ℕ
deriving DecidableEq

/-- `client.submit(...)` returns a future for the job. -/
def DaskClient.submit (_c : DaskClient) (job : DaskJob) : DaskJob := job

/-- `DaskComputation`: wraps a dask future; `__init__` sets
`self.work = dask_future` and `self.meta_data = {}`. -/
structure DaskComputation where
  work : DaskJob
  meta_data : List (String × String)
deriving DecidableEq

/-- `DaskComputation.__init__`: `meta_data` starts as the empty dict. -/
def DaskComputation.init (dask_future : DaskJob) : DaskComputation :=
  { work := dask_future, meta_data := [] }

/-- Python dict item assignment `d[k] = v` on an association list. -/
def setItem (m : List (String × String)) (k v : String) : List (String × String) :=
  match m with
  | [] => [(k, v)]
  | (k', v') :: rest => if k' = k then (k, v) :: rest else (k', v') :: setItem rest k v

/-- `DaskEngine`: holds the dask client. -/
structure DaskEngine where
  client : DaskClient
deriving DecidableEq

/-- `DaskEngine.submit_evaluation_job`: submits `train_and_score_pipeline`
with the pipeline, the automl data and the full training set, and wraps the
future in a fresh `DaskComputation`. -/
def DaskEngine.submit_evaluation_job (e : DaskEngine) (automl_data : AutoMLData)
    (pipeline : PipelineInstance) : DaskComputation :=
  let dask_future := e.client.submit
    (DaskJob.trainAndScorePipeline pipeline automl_data automl_data.X_train automl_data.y_train)
  DaskComputation.init dask_future

/-- `DaskEngine.submit_training_job`: submits `train_pipeline` with the
training set, the threshold-optimization flag and the objective, and wraps
the future in a fresh `DaskComputation`. -/
def DaskEngine.submit_training_job (e : DaskEngine) (automl_data : AutoMLData)
    (pipeline : PipelineInstance) : DaskComputation :=
  let dask_future := e.client.submit
    (DaskJob.trainPipeline pipeline automl_data.X_train automl_data.y_train
      automl_data.optimize_thresholds automl_data.objective)
  DaskComputation.init dask_future

/-- `DaskEngine.submit_scoring_job`: submits `score_pipeline`, wraps the
future, then sets `computation.meta_data["pipeline_name"]` to the pipeline's
`custom_name`. -/
def DaskEngine.submit_scoring_job (e : DaskEngine) (_automl_data : AutoMLData)
    (pipeline : PipelineInstance) (X y : DataRef) (objectives : List String) : DaskComputation :=
  let dask_future := e.client.submit (DaskJob.scorePipeline pipeline X y objectives)
  let computation := DaskComputation.init dask_future
  { computation with
      meta_data := setItem computation.meta_data "pipeline_name" pipeline.custom_name }

/-! ## Part 2: the AutoML search core, modelled from the spec

The controller implementation (`automl_search`) is not among the given
source files; only its test suite is. Every definition below marked
`Modelled from the spec:` reconstructs the missing piece from the
specification's words (sections 3-8). -/

/-- Modelled from the spec: the problem types the search core distinguishes
(binary vs multiclass classification). -/
inductive ProblemType
  | binary
  | multi
deriving DecidableEq

/-- Modelled from the spec: an objective exposes its name, the problem types
it is compatible with, its optimization direction, and whether it supports
threshold optimization (section 6 collaborator contract). -/
structure Objective where
  name : String
  problem_types : List ProblemType
  greater_is_better : Bool
  can_optimize_threshold : Bool
deriving DecidableEq

def precision_obj : Objective := ⟨"precision", [ProblemType.binary], true, true⟩
def precision_micro_obj : Objective := ⟨"precision_micro", [ProblemType.multi], true, false⟩
def f1_obj : Objective := ⟨"f1", [ProblemType.binary], true, true⟩
def f1_micro_obj : Objective := ⟨"f1_micro", [ProblemType.multi], true, false⟩
def auc_obj : Objective := ⟨"auc", [ProblemType.binary], true, false⟩
def auc_micro_obj : Objective := ⟨"auc_micro", [ProblemType.multi], true, false⟩
def log_loss_binary_obj : Objective := ⟨"log_loss_binary", [ProblemType.binary], false, false⟩
def log_loss_multi_obj : Objective := ⟨"log_loss_multi", [ProblemType.multi], false, false⟩

/-- Modelled from the spec: the objective registry used for lookup by name
(section 9: registry injected into the objective resolver). It carries the
objectives the test suite exercises; `recall` is not registered. -/
def objective_registry : List Objective :=
  [precision_obj, precision_micro_obj, f1_obj, f1_micro_obj,
   auc_obj, auc_micro_obj, log_loss_binary_obj, log_loss_multi_obj]

/-- Modelled from the spec: the fatal configuration errors surfaced by the
search constructor (section 7 error taxonomy). -/
inductive ConfigError
  | invalidMaxTimeUnit (unit : String)
  | invalidMaxTimeValue (s : String)
  | invalidMaxTimeType
  | nonPositivePatience (p : ℤ)
  | outOfRangeTolerance (t : ℚ)
  | objectiveNotFound (name : String)
deriving DecidableEq

/-- Modelled from the spec: `lookup by string name fails with
ObjectiveNotFoundError if unregistered` (section 6). -/
def get_objective (name : String) : Except ConfigError Objective :=
  match objective_registry.find? (fun o => o.name == name) with
  | some o => Except.ok o
  | none => Except.error (ConfigError.objectiveNotFound name)

/-- An objective argument is either a registered name or an objective
object passed directly (the tests pass both forms). -/
inductive ObjectiveRef
  | byName (name : String)
  | byObj (o : Objective)
deriving DecidableEq

/-- Resolving an objective argument: names go through the registry,
objective objects are taken as-is. -/
def resolve_objective : ObjectiveRef → Except ConfigError Objective
  | ObjectiveRef.byName s => get_objective s
  | ObjectiveRef.byObj o => Except.ok o

/-- Resolve a list of objective arguments, failing on the first unresolved
name. -/
def resolve_objective_list : List ObjectiveRef → Except ConfigError (List Objective)
  | [] => Except.ok []
  | r :: rs =>
    match resolve_objective r with
    | Except.error e => Except.error e
    | Except.ok o =>
      match resolve_objective_list rs with
      | Except.error e => Except.error e
      | Except.ok os => Except.ok (o :: os)

/-- A Python value passed as `max_time`: an int, a float, a string, or some
other object (a tuple is the representative non-numeric, non-string case). -/
inductive PyValue
  | int (n : ℤ)
  | float (q : ℚ)
  | str (s : String)
  | tuple (fst snd : PyValue)

/-- Split a character list on spaces into words (structural recursion). -/
def wordsAux : List Char → List Char → List (List Char)
  | [], acc => if acc.isEmpty then [] else [acc.reverse]
  | c :: cs, acc =>
    if c = ' ' then
      if acc.isEmpty then wordsAux cs [] else acc.reverse :: wordsAux cs []
    else wordsAux cs (c :: acc)

/-- The words of a string, split on spaces. -/
def words (s : String) : List (List Char) := wordsAux s.toList []

/-- Accumulate decimal digits into a natural number; `none` on a non-digit. -/
def digitsGo : List Char → ℕ → Option ℕ
  | [], n => some n
  | c :: cs, n =>
    if c.isDigit then digitsGo cs (n * 10 + (c.toNat - '0'.toNat)) else none

/-- Parse a non-empty all-digit character list as a natural number. -/
def parseAmount : List Char → Option ℕ
  | [] => none
  | cs => digitsGo cs 0

/-- Modelled from the spec: unit suffixes `s`/`sec`/`seconds`. -/
def secondsUnits : List String := ["s", "sec", "second", "seconds"]

/-- Modelled from the spec: unit suffixes `min`/`mins`/`minute(s)`. -/
def minutesUnits : List String := ["min", "mins", "minute", "minutes"]

/-- Modelled from the spec: unit suffixes `hour(s)`. -/
def hoursUnits : List String := ["hour", "hours"]

/-- Modelled from the spec: the factor turning one time unit into seconds;
an unrecognized unit is a fatal configuration error (section 4.5). -/
def unitMultiplier (unit : String) : Except ConfigError ℕ :=
  if secondsUnits.contains unit then Except.ok 1
  else if minutesUnits.contains unit then Except.ok 60
  else if hoursUnits.contains unit then Except.ok 3600
  else Except.error (ConfigError.invalidMaxTimeUnit unit)

/-- Modelled from the spec: parsing a `max_time` string of the form
`"<amount> <unit>"` into a number of seconds (section 4.5). -/
def convert_to_seconds (s : String) : Except ConfigError ℕ :=
  match words s with
  | [amt, unit] =>
    match parseAmount amt with
    | some n =>
      match unitMultiplier (String.mk unit) with
      | Except.ok m => Except.ok (n * m)
      | Except.error e => Except.error e
    | none => Except.error (ConfigError.invalidMaxTimeValue s)
  | _ => Except.error (ConfigError.invalidMaxTimeValue s)

/-- Modelled from the spec: `max_time` accepts numeric seconds or a string
with a unit suffix; a non-numeric, non-string value is a fatal
configuration error (section 4.5). -/
def parse_max_time : Option PyValue → Except ConfigError (Option ℚ)
  | none => Except.ok none
  | some (PyValue.int n) => Except.ok (some (n : ℚ))
  | some (PyValue.float q) => Except.ok (some q)
  | some (PyValue.str s) =>
    match convert_to_seconds s with
    | Except.ok n => Except.ok (some (n : ℚ))
    | Except.error e => Except.error e
  | some (PyValue.tuple _ _) => Except.error ConfigError.invalidMaxTimeType

/-- Modelled from the spec: `patience` must be a positive integer when
given; non-positive is a fatal configuration error (section 4.5). -/
def validate_patience : Option ℤ → Except ConfigError (Option ℕ)
  | none => Except.ok none
  | some k =>
    if k ≤ 0 then Except.error (ConfigError.nonPositivePatience k)
    else Except.ok (some k.toNat)

/-- Modelled from the spec: `tolerance` must lie in `[0, 1]` when given;
outside that range is a fatal configuration error (section 4.5). -/
def validate_tolerance : Option ℚ → Except ConfigError ℚ
  | none => Except.ok 0
  | some t =>
    if t < 0 ∨ 1 < t then Except.error (ConfigError.outOfRangeTolerance t)
    else Except.ok t

/-- The raw constructor arguments of a search object (section 6
configuration surface), before validation. -/
structure SearchParams where
  problem_type : ProblemType
  objective : ObjectiveRef
  additional_objectives : List ObjectiveRef
  max_pipelines : Option ℕ
  max_time : Option PyValue
  patience : Option ℤ
  tolerance : Option ℚ
  optimize_thresholds : Bool
  random_state : ℕ

/-- The validated per-search configuration (spec section 3, `AutoMLData`
bundle plus stopping-rule settings). -/
structure Config where
  problem_type : ProblemType
  objective : Objective
  additional_objectives : List Objective
  max_pipelines : Option ℕ
  max_time : Option ℚ
  patience : Option ℕ
  tolerance : ℚ
  optimize_thresholds : Bool
  random_state : ℕ
deriving DecidableEq

/-- Modelled from the spec: construction of the search object validates the
configuration (section 7: ConfigurationError surfaced at construction for
invalid `max_time`, non-positive `patience`, out-of-range `tolerance`,
objective name not found). The objective/problem-type compatibility check
is performed by `search`, not here: the test suite
(`test_multi_error`) constructs such searches successfully and only
`search(X, y)` raises. -/
def validate_params (p : SearchParams) : Except ConfigError Config :=
  match resolve_objective p.objective with
  | Except.error e => Except.error e
  | Except.ok obj =>
    match resolve_objective_list p.additional_objectives with
    | Except.error e => Except.error e
    | Except.ok addl =>
      match parse_max_time p.max_time with
      | Except.error e => Except.error e
      | Except.ok mt =>
        match validate_patience p.patience with
        | Except.error e => Except.error e
        | Except.ok pat =>
          match validate_tolerance p.tolerance with
          | Except.error e => Except.error e
          | Except.ok tol =>
            Except.ok
              { problem_type := p.problem_type
                objective := obj
                additional_objectives := addl
                max_pipelines := p.max_pipelines
                max_time := mt
                patience := pat
                tolerance := tol
                optimize_thresholds := p.optimize_thresholds
                random_state := p.random_state }

/-- A pipeline class, identified by its name. -/
structure PipelineClass where
  name : String
deriving DecidableEq

def ModeBaselineBinaryPipeline : PipelineClass :=
  ⟨"Mode Baseline Binary Classification Pipeline"⟩

def LogisticRegressionBinaryPipeline : PipelineClass :=
  ⟨"Logistic Regression Binary Pipeline"⟩

/-- Modelled from the spec: the candidate generator produces the baseline
pipeline first, always, then the remaining allowed pipelines (cycling
through them as the pluggable parameter source suggests new parameter
sets; section 4.3). -/
def candidate_sequence (baseline : PipelineClass) (allowed : List PipelineClass) :
    ℕ → PipelineClass
  | 0 => baseline
  | i + 1 => allowed.getD (i % allowed.length) baseline

/-- Outcome of the per-candidate threshold-tuning step: the threshold put on
the trained binary pipeline, and whether `predict_proba` and the
objective's `optimize_threshold` were invoked. -/
structure ThresholdOutcome where
  threshold : ℚ
  proba_called : Bool
  optimizer_called : Bool
deriving DecidableEq

/-- Modelled from the spec: with `optimize_thresholds=True` and an
objective that supports it, the threshold-optimization step is invoked on
predicted probabilities and its value becomes the pipeline threshold; when
disabled or unsupported, neither `predict_proba` nor the optimizer runs and
the threshold stays 0.5 (section 4.4). -/
def tune_threshold (optimize_thresholds : Bool) (objective : Objective)
    (optimized_value : ℚ) : ThresholdOutcome :=
  if optimize_thresholds && objective.can_optimize_threshold then
    ⟨optimized_value, true, true⟩
  else
    ⟨1 / 2, false, false⟩

/-- Modelled from the spec: the aggregated record of one completed
candidate (section 3, `CandidateResult`). -/
structure CandidateResult where
  search_order : ℕ
  pipeline_cls : PipelineClass
  score : ℚ
  threshold : ℚ
  proba_called : Bool
  optimizer_called : Bool
deriving DecidableEq

/-- The per-run inputs the controller consumes deterministically: the
candidate sequence, the cross-validated score, wall-clock duration and
optimized threshold of the i-th candidate, and the problem type detected
from the data at `search(X, y)` time. -/
structure SearchEnv where
  gen : ℕ → PipelineClass
  cv_score : ℕ → ℚ
  duration : ℕ → ℚ
  opt_threshold : ℕ → ℚ
  data_problem_type : ProblemType

/-- Modelled from the spec: the mutable controller state — recorded
results, elapsed wall time, and the synchronous callback invocation logs
(section 4.5). -/
structure SearchState where
  results : List CandidateResult
  elapsed : ℚ
  start_calls : List PipelineClass
  result_calls : List PipelineClass

/-- The state a search starts from: empty leaderboard, no elapsed time, no
callback invocations. -/
def init_state : SearchState := ⟨[], 0, [], []⟩

/-- Cross-validate one candidate and aggregate it into a `CandidateResult`
carrying the next dense `search_order` id `i` (spec sections 4.4-4.6). -/
def evaluate_candidate (cfg : Config) (env : SearchEnv) (i : ℕ) : CandidateResult :=
  let t := tune_threshold cfg.optimize_thresholds cfg.objective (env.opt_threshold i)
  { search_order := i
    pipeline_cls := env.gen i
    score := env.cv_score i
    threshold := t.threshold
    proba_called := t.proba_called
    optimizer_called := t.optimizer_called }

/-- One `RUNNING → RUNNING` transition of the controller (section 4.5):
invoke `start_iteration_callback`, evaluate the next candidate, invoke
`add_result_callback`, append the result, and account its wall time. -/
def step_search (cfg : Config) (env : SearchEnv) (st : SearchState) : SearchState :=
  let i := st.results.length
  { results := st.results ++ [evaluate_candidate cfg env i]
    elapsed := st.elapsed + env.duration i
    start_calls := st.start_calls ++ [env.gen i]
    result_calls := st.result_calls ++ [env.gen i] }

/-- Whether the `i`-th candidate strictly improved on the rolling best and
by more than the `tolerance` fraction of it (section 4.5 early stopping). -/
def significant_improvement (gib : Bool) (tol best s : ℚ) : Bool :=
  (if gib then decide (best < s) else decide (s < best)) &&
    decide (tol * |best| < |s - best|)

/-- Walk the recorded scores keeping the rolling best and the count of
consecutive candidates without significant improvement; signal a stop once
the count reaches `patience`. -/
def patience_walk (gib : Bool) (pat : ℕ) (tol : ℚ) : ℚ → ℕ → List ℚ → Bool
  | _, _, [] => false
  | best, cnt, s :: rest =>
    if significant_improvement gib tol best s then
      patience_walk gib pat tol s 0 rest
    else if cnt + 1 ≥ pat then true
    else patience_walk gib pat tol best (cnt + 1) rest

/-- Modelled from the spec: early stopping triggers after at least
`patience` candidates when none improved the rolling best by more than the
`tolerance` fraction (section 4.5, `StoppingState` of section 3). -/
def patience_should_stop (gib : Bool) (pat : ℕ) (tol : ℚ) : List ℚ → Bool
  | [] => false
  | s0 :: rest => patience_walk gib pat tol s0 0 rest

/-- The iteration-budget check: stop once `max_pipelines` results are
recorded. -/
def max_pipelines_reached (cfg : Config) (st : SearchState) : Bool :=
  match cfg.max_pipelines with
  | none => false
  | some n => decide (n ≤ st.results.length)

/-- The time-budget check: stop once elapsed wall time reaches `max_time`. -/
def max_time_exceeded (cfg : Config) (st : SearchState) : Bool :=
  match cfg.max_time with
  | none => false
  | some t => decide (t ≤ st.elapsed)

/-- The early-stopping check over the recorded score sequence. -/
def patience_triggered (cfg : Config) (st : SearchState) : Bool :=
  match cfg.patience with
  | none => false
  | some p =>
    patience_should_stop cfg.objective.greater_is_better p cfg.tolerance
      (st.results.map (fun r => r.score))

/-- Modelled from the spec: the stopping condition evaluated between
candidates; it never stops before the first candidate is recorded, which
is what guarantees at least one evaluation under any time budget
(sections 4.5, 8). Returns `true` when the search must stop. -/
def check_stopping_condition (cfg : Config) (st : SearchState) : Bool :=
  if st.results.length = 0 then false
  else
    max_pipelines_reached cfg st || max_time_exceeded cfg st || patience_triggered cfg st

/-- The search loop: between candidates evaluate the stopping condition;
while it does not fire, run another candidate. `fuel` bounds the number of
iterations so the recursion is structural; every claim below supplies
enough fuel for the configured budget. -/
def run_search_loop (cfg : Config) (env : SearchEnv) : ℕ → SearchState → SearchState
  | 0, st => st
  | fuel + 1, st =>
    if check_stopping_condition cfg st then st
    else run_search_loop cfg env fuel (step_search cfg env st)

/-- Run a search from the initial state. -/
def run_search (cfg : Config) (env : SearchEnv) (fuel : ℕ) : SearchState :=
  run_search_loop cfg env fuel init_state

/-- Objective/problem-type compatibility (section 4.3/7). -/
def compatible (o : Objective) (pt : ProblemType) : Bool :=
  o.problem_types.contains pt

/-- The search-time error surfaced before any candidate is evaluated. -/
inductive SearchError
  | incompatibleObjective (name : String)
deriving DecidableEq

/-- Modelled from the spec: `search(X, y)` first checks every configured
objective against the problem type detected from the data and raises for an
incompatible one before submitting any work (the `test_multi_error`
behavior), then drives the loop. -/
def search (cfg : Config) (env : SearchEnv) (fuel : ℕ) : Except SearchError SearchState :=
  match (cfg.objective :: cfg.additional_objectives).find?
      (fun o => !(compatible o env.data_problem_type)) with
  | some o => Except.error (SearchError.incompatibleObjective o.name)
  | none => Except.ok (run_search cfg env fuel)

/-- The "Pipeline not found" class of error (section 7, NotFoundError). -/
inductive NotFoundError
  | pipelineNotFound (pipeline_id : ℕ)
  | storeEmpty
deriving DecidableEq

/-- Modelled from the spec: `get(id)` on the results store fails with
NotFoundError when `id` is unassigned (section 4.6). -/
def get_pipeline (st : SearchState) (pipeline_id : ℕ) : Except NotFoundError CandidateResult :=
  match st.results[pipeline_id]? with
  | some r => Except.ok r
  | none => Except.error (NotFoundError.pipelineNotFound pipeline_id)

/-- Modelled from the spec: describing a pipeline retrieves it by id first,
so it fails with the same NotFoundError on an unassigned id. -/
def describe_pipeline (st : SearchState) (pipeline_id : ℕ) :
    Except NotFoundError (PipelineClass × ℚ) :=
  match get_pipeline st pipeline_id with
  | Except.ok r => Except.ok (r.pipeline_cls, r.score)
  | Except.error e => Except.error e

/-- Of two results, the one with the strictly better primary score under
the objective's orientation; ties keep the first (lower id wins,
section 3). -/
def better_of (gib : Bool) (a b : CandidateResult) : CandidateResult :=
  if (if gib then decide (a.score < b.score) else decide (b.score < a.score)) then b else a

/-- Modelled from the spec: `best()` fails with NotFoundError on an empty
store, otherwise returns the best-scoring recorded candidate (section 4.6). -/
def best_result (gib : Bool) : List CandidateResult → Except NotFoundError CandidateResult
  | [] => Except.error NotFoundError.storeEmpty
  | r :: rs => Except.ok (rs.foldl (better_of gib) r)

/-- `rank_outranks gib a b`: `a` strictly precedes `b` in the rankings. -/
def rank_outranks (gib : Bool) (a b : CandidateResult) : Bool :=
  if gib then decide (b.score < a.score) else decide (a.score < b.score)

/-- Insert a result into a ranked list, after every strictly better entry
and before ties, keeping the sort stable by insertion order. -/
def insert_ranked (gib : Bool) (r : CandidateResult) :
    List CandidateResult → List CandidateResult
  | [] => [r]
  | x :: xs => if rank_outranks gib x r then x :: insert_ranked gib r xs else r :: x :: xs

/-- Modelled from the spec: `rankings()` sorts the recorded results by
primary score under the objective's orientation, stable by insertion order
on ties (section 4.6). -/
def rankings (gib : Bool) : List CandidateResult → List CandidateResult
  | [] => []
  | r :: rs => insert_ranked gib r (rankings gib rs)

/-- Whether an `Except` computation succeeded (a raised error gives
`false`). -/
def is_ok {ε α : Type} : Except ε α → Bool
  | Except.ok _ => true
  | Except.error _ => false

/-- The constructor arguments of a plain binary search varying only in
`max_time`, as in `test_max_time_units`. -/
def max_time_params (mt : Option PyValue) : SearchParams :=
  { problem_type := ProblemType.binary
    objective := ObjectiveRef.byName "f1"
    additional_objectives := []
    max_pipelines := none
    max_time := mt
    patience := none
    tolerance := none
    optimize_thresholds := true
    random_state := 0 }

/-- The `max_time` value recorded on a freshly constructed search object,
or the construction-time error. -/
def parsed_max_time (mt : Option PyValue) : Except ConfigError (Option ℚ) :=
  match validate_params (max_time_params mt) with
  | Except.ok cfg => Except.ok cfg.max_time
  | Except.error e => Except.error e

/-- Constructor arguments with a non-positive `patience`
(`test_early_stopping`, `patience=-1`). -/
def bad_patience_params : SearchParams :=
  { max_time_params none with
      objective := ObjectiveRef.byName "auc"
      max_pipelines := some 5
      patience := some (-1) }

/-- Constructor arguments with an out-of-range `tolerance`
(`test_early_stopping`, `tolerance=1.5`). -/
def bad_tolerance_params : SearchParams :=
  { max_time_params none with
      objective := ObjectiveRef.byName "auc"
      max_pipelines := some 5
      patience := some 1
      tolerance := some (3 / 2) }

/-- Constructor arguments naming the unregistered objective `recall`
(`test_recall_error`). -/
def recall_params : SearchParams :=
  { max_time_params none with
      objective := ObjectiveRef.byName "recall"
      max_pipelines := some 1 }

/-- Constructor arguments passing a tuple as `max_time`
(`test_max_time_units`). -/
def tuple_max_time_params : SearchParams :=
  max_time_params (some (PyValue.tuple (PyValue.int 30) (PyValue.str "minutes")))

/-- Constructor arguments of `test_multi_error`: a multiclass search whose
additional objective `precision` is binary-only. -/
def multi_error_params : SearchParams :=
  { max_time_params none with
      problem_type := ProblemType.multi
      objective := ObjectiveRef.byName "precision_micro"
      additional_objectives := [ObjectiveRef.byName "precision"] }

/-- The validated configuration `multi_error_params` resolves to. -/
def multi_error_config : Config :=
  { problem_type := ProblemType.multi
    objective := precision_micro_obj
    additional_objectives := [precision_obj]
    max_pipelines := none
    max_time := none
    patience := none
    tolerance := 0
    optimize_thresholds := true
    random_state := 0 }

/-- A plain validated binary-search configuration around one objective; the
concrete claims below override individual budget fields. -/
def default_config (obj : Objective) : Config :=
  { problem_type := ProblemType.binary
    objective := obj
    additional_objectives := []
    max_pipelines := none
    max_time := none
    patience := none
    tolerance := 0
    optimize_thresholds := true
    random_state := 0 }

/-- A concrete deterministic run environment: baseline first then a
logistic-regression pipeline, unit wall time per candidate, constant
cross-validation score, optimizer threshold 4/5, binary data. -/
def unit_env : SearchEnv :=
  { gen := candidate_sequence ModeBaselineBinaryPipeline [LogisticRegressionBinaryPipeline]
    cv_score := fun _ => 0
    duration := fun _ => 1
    opt_threshold := fun _ => 4 / 5
    data_problem_type := ProblemType.binary }

/-- `unit_env` over multiclass data, used when exercising the search-time
compatibility check. -/
def multiclass_env : SearchEnv :=
  { unit_env with data_problem_type := ProblemType.multi }

/-- The best candidate produced by a one-candidate run of `unit_env` under
an optimizable objective with `optimize_thresholds=True`. -/
def tuned_best : CandidateResult :=
  { search_order := 0
    pipeline_cls := ModeBaselineBinaryPipeline
    score := 0
    threshold := 4 / 5
    proba_called := true
    optimizer_called := true }

/-- The configuration of `test_early_stopping`: AUC objective,
`max_pipelines=5`, `patience=2`, `tolerance=0.05`. -/
def early_stopping_config : Config :=
  { default_config auc_obj with
      max_pipelines := some 5
      patience := some 2
      tolerance := 5 / 100 }

/-- A mocked recorded candidate carrying only an id and a score, as the
mocked `pipeline_results` of `test_early_stopping`. -/
def mock_result (i : ℕ) (s : ℚ) : CandidateResult :=
  { search_order := i
    pipeline_cls := LogisticRegressionBinaryPipeline
    score := s
    threshold := 1 / 2
    proba_called := false
    optimizer_called := false }

/-- The mocked leaderboard of `test_early_stopping`: scores
`[0.95, 0.84, third]`. -/
def early_stopping_state (third : ℚ) : SearchState :=
  { results := [mock_result 0 (95 / 100), mock_result 1 (84 / 100), mock_result 2 third]
    elapsed := 0
    start_calls := []
    result_calls := [] }

/-- A one-candidate leaderboard used to exercise id lookup. -/
def sample_state : SearchState :=
  { results := [mock_result 0 (95 / 100)]
    elapsed := 0
    start_calls := [LogisticRegressionBinaryPipeline]
    result_calls := [LogisticRegressionBinaryPipeline] }

/-! ## Theorems -/

/-- C10: `submit_scoring_job` returns a computation whose `meta_data` maps
`"pipeline_name"` to the pipeline's `custom_name`, while
`submit_training_job` and `submit_evaluation_job` return computations with
empty `meta_data` (the `DaskComputation` constructor initializes it to `{}`
and only `submit_scoring_job` adds to it). -/
theorem C10_dask_meta_data (e : DaskEngine) (automl_data : AutoMLData)
    (pipeline : PipelineInstance) (X y : DataRef) (objectives : List String) :
    (e.submit_scoring_job automl_data pipeline X y objectives).meta_data =
      [("pipeline_name", pipeline.custom_name)] ∧
    (e.submit_training_job automl_data pipeline).meta_data = [] ∧
    (e.submit_evaluation_job automl_data pipeline).meta_data = [] := by
  refine ⟨rfl, rfl, rfl⟩

/-- C1: construction parses the `max_time` strings `"60 seconds"`,
`"1 hour"`, `"30 mins"`, `"30 s"` to 60, 3600, 1800 and 30 seconds
respectively, and raises a configuration error for `"30 years"`
(unrecognized unit) and for a non-numeric, non-string value (a tuple). -/
theorem C1_max_time_units :
    parsed_max_time (some (PyValue.str "60 seconds")) = Except.ok (some 60) ∧
    parsed_max_time (some (PyValue.str "1 hour")) = Except.ok (some 3600) ∧
    parsed_max_time (some (PyValue.str "30 mins")) = Except.ok (some 1800) ∧
    parsed_max_time (some (PyValue.str "30 s")) = Except.ok (some 30) ∧
    parsed_max_time (some (PyValue.str "30 years")) =
      Except.error (ConfigError.invalidMaxTimeUnit "years") ∧
    parsed_max_time (some (PyValue.tuple (PyValue.int 30) (PyValue.str "minutes"))) =
      Except.error ConfigError.invalidMaxTimeType := by
  have h60 : parsed_max_time (some (PyValue.str "60 seconds")) =
      Except.ok (some ((60 : ℕ) : ℚ)) := rfl
  have h3600 : parsed_max_time (some (PyValue.str "1 hour")) =
      Except.ok (some ((3600 : ℕ) : ℚ)) := rfl
  have h1800 : parsed_max_time (some (PyValue.str "30 mins")) =
      Except.ok (some ((1800 : ℕ) : ℚ)) := rfl
  have h30 : parsed_max_time (some (PyValue.str "30 s")) =
      Except.ok (some ((30 : ℕ) : ℚ)) := rfl
  refine ⟨?_, ?_, ?_, ?_, rfl, rfl⟩
  · rw [h60]; norm_num
  · rw [h3600]; norm_num
  · rw [h1800]; norm_num
  · rw [h30]; norm_num

/-- C3: on every leaderboard state, retrieving or describing a pipeline by
an unassigned id (at or beyond the recorded count, including on an empty
leaderboard) fails with the "Pipeline not found" error, while ids below
the recorded count succeed. -/
theorem C3_pipeline_not_found (st : SearchState) (pipeline_id : ℕ) :
    (st.results.length ≤ pipeline_id →
      get_pipeline st pipeline_id =
        Except.error (NotFoundError.pipelineNotFound pipeline_id) ∧
      describe_pipeline st pipeline_id =
        Except.error (NotFoundError.pipelineNotFound pipeline_id)) ∧
    (pipeline_id < st.results.length →
      is_ok (get_pipeline st pipeline_id) = true ∧
      is_ok (describe_pipeline st pipeline_id) = true) := by
  constructor
  · intro h
    have hnone : st.results[pipeline_id]? = none := List.getElem?_eq_none h
    constructor
    · simp [get_pipeline, hnone]
    · simp [describe_pipeline, get_pipeline, hnone]
  · intro h
    have hsome : st.results[pipeline_id]? = some st.results[pipeline_id] :=
      List.getElem?_eq_getElem h
    constructor
    · simp [get_pipeline, hsome, is_ok]
    · simp [describe_pipeline, get_pipeline, hsome, is_ok]

/-- C5: with `patience=2`, `tolerance=0.05` and a higher-is-better
objective, the stopping check fires on the recorded scores
`[0.95, 0.84, 0.96]` (0.96 improves the rolling best 0.95 by less than the
5% tolerance) and does not fire when the third score is `1.10` (more than
5% relative improvement). -/
theorem C5_early_stopping :
    check_stopping_condition early_stopping_config (early_stopping_state (96 / 100)) = true ∧
    check_stopping_condition early_stopping_config (early_stopping_state (110 / 100)) = false := by
  constructor <;>
    norm_num [check_stopping_condition, early_stopping_config, early_stopping_state,
      default_config, mock_result, max_pipelines_reached, max_time_exceeded,
      patience_triggered, patience_should_stop, patience_walk, significant_improvement,
      auc_obj, abs_of_nonneg, abs_of_pos]

/-- C9: two searches with identical configuration (including
`random_state`) run on identical inputs with the same iteration fuel
produce identical rankings. -/
theorem C9_determinism (cfg₁ cfg₂ : Config) (env₁ env₂ : SearchEnv) (fuel₁ fuel₂ : ℕ)
    (hcfg : cfg₁ = cfg₂) (henv : env₁ = env₂) (hfuel : fuel₁ = fuel₂) :
    rankings cfg₁.objective.greater_is_better (run_search cfg₁ env₁ fuel₁).results =
      rankings cfg₂.objective.greater_is_better (run_search cfg₂ env₂ fuel₂).results := by
  subst hcfg
  subst henv
  subst hfuel
  rfl

/-- Witness for C9 at a concrete configuration and environment. -/
theorem C9_determinism_witness :
    rankings (default_config precision_obj).objective.greater_is_better
        (run_search (default_config precision_obj) unit_env 1).results =
      rankings (default_config precision_obj).objective.greater_is_better
        (run_search (default_config precision_obj) unit_env 1).results :=
  C9_determinism (default_config precision_obj) (default_config precision_obj)
    unit_env unit_env 1 1 rfl rfl rfl

/-- Witness for C3: lookup and describe fail on the empty leaderboard and
on an id beyond the recorded count, and succeed below it. -/
theorem C3_pipeline_not_found_witness :
    (get_pipeline init_state 0 = Except.error (NotFoundError.pipelineNotFound 0) ∧
      describe_pipeline init_state 0 = Except.error (NotFoundError.pipelineNotFound 0)) ∧
    (get_pipeline sample_state 1000 = Except.error (NotFoundError.pipelineNotFound 1000) ∧
      describe_pipeline sample_state 1000 = Except.error (NotFoundError.pipelineNotFound 1000)) ∧
    (is_ok (get_pipeline sample_state 0) = true ∧
      is_ok (describe_pipeline sample_state 0) = true) :=
  ⟨(C3_pipeline_not_found init_state 0).1 (by simp [init_state]),
   (C3_pipeline_not_found sample_state 1000).1 (by simp [sample_state]),
   (C3_pipeline_not_found sample_state 0).2 (by simp [sample_state])⟩

/-- A stopped state is a fixed point of the loop for any remaining fuel. -/
theorem run_search_loop_stopped (cfg : Config) (env : SearchEnv) (fuel : ℕ)
    (st : SearchState) (h : check_stopping_condition cfg st = true) :
    run_search_loop cfg env fuel st = st := by
  cases fuel with
  | zero => rfl
  | succ f => simp [run_search_loop, h]

/-- One step appends exactly one result. -/
theorem step_search_results_length (cfg : Config) (env : SearchEnv) (st : SearchState) :
    (step_search cfg env st).results.length = st.results.length + 1 := by
  simp [step_search]

/-- The stopping condition never fires on a state without results. -/
theorem check_stopping_condition_empty (cfg : Config) (st : SearchState)
    (h : st.results.length = 0) : check_stopping_condition cfg st = false := by
  simp [check_stopping_condition, h]

/-- The stopping condition fires once the time budget is consumed and at
least one result is recorded. -/
theorem check_stopping_condition_time (cfg : Config) (st : SearchState) (t : ℚ)
    (hmt : cfg.max_time = some t) (hne : st.results.length ≠ 0) (h : t ≤ st.elapsed) :
    check_stopping_condition cfg st = true := by
  simp [check_stopping_condition, max_time_exceeded, hmt, hne, h]

/-- C4: whenever `max_time` is at most the first candidate's duration (in
particular, smaller than any single iteration), the search still evaluates
exactly one candidate: the time-budget check cannot stop the loop before
the first result is recorded, and stops it right after. -/
theorem C4_min_one_iteration (cfg : Config) (env : SearchEnv) (fuel : ℕ) (t : ℚ)
    (hmt : cfg.max_time = some t) (hdur : t ≤ env.duration 0) (hfuel : 1 ≤ fuel) :
    (run_search cfg env fuel).results.length = 1 := by
  obtain ⟨f, rfl⟩ : ∃ f, fuel = f + 1 := ⟨fuel - 1, by omega⟩
  have h0 : check_stopping_condition cfg init_state = false :=
    check_stopping_condition_empty cfg init_state rfl
  have hstep : check_stopping_condition cfg (step_search cfg env init_state) = true := by
    refine check_stopping_condition_time cfg _ t hmt (by simp [step_search_results_length, init_state]) ?_
    show t ≤ (step_search cfg env init_state).elapsed
    simp only [step_search, init_state]
    simpa using hdur
  rw [run_search, run_search_loop, if_neg (by simp [h0]),
    run_search_loop_stopped cfg env f _ hstep, step_search_results_length]
  rfl

/-- Witness for C4: with `max_time = 1` and unit-duration candidates, one
candidate is evaluated. -/
theorem C4_min_one_iteration_witness :
    (run_search { default_config precision_obj with max_time := some 1 } unit_env 5).results.length = 1 :=
  C4_min_one_iteration { default_config precision_obj with max_time := some 1 } unit_env 5 1
    rfl (by norm_num [unit_env]) (by norm_num)

/-- Under a pure `max_pipelines` budget the loop length follows
`min N (started + fuel)`. -/
theorem loop_length_max_pipelines (cfg : Config) (env : SearchEnv) (N : ℕ)
    (hN : cfg.max_pipelines = some N) (hmt : cfg.max_time = none)
    (hpat : cfg.patience = none) (h1 : 1 ≤ N) :
    ∀ (fuel : ℕ) (st : SearchState), st.results.length ≤ N →
      (run_search_loop cfg env fuel st).results.length =
        min N (st.results.length + fuel) := by
  intro fuel
  induction fuel with
  | zero =>
    intro st hst
    simp [run_search_loop, Nat.min_eq_right hst]
  | succ f ih =>
    intro st hst
    rw [run_search_loop]
    by_cases h0 : st.results.length = 0
    · rw [if_neg (by simp [check_stopping_condition_empty cfg st h0])]
      have hlen : (step_search cfg env st).results.length = 1 := by
        rw [step_search_results_length, h0]
      rw [ih (step_search cfg env st) (by omega), hlen, h0]
      omega
    · by_cases hNle : N ≤ st.results.length
      · have hc : check_stopping_condition cfg st = true := by
          simp [check_stopping_condition, max_pipelines_reached, max_time_exceeded,
            patience_triggered, hN, hmt, hpat, h0, hNle]
        rw [if_pos (by simp [hc])]
        omega
      · have hc : check_stopping_condition cfg st = false := by
          simp [check_stopping_condition, max_pipelines_reached, max_time_exceeded,
            patience_triggered, hN, hmt, hpat, h0, hNle]
        rw [if_neg (by simp [hc])]
        rw [ih (step_search cfg env st) (by rw [step_search_results_length]; omega),
          step_search_results_length]
        omega

/-- One step preserves the dense `search_order` invariant. -/
theorem step_search_order (cfg : Config) (env : SearchEnv) (st : SearchState)
    (h : st.results.map (fun r => r.search_order) = List.range st.results.length) :
    (step_search cfg env st).results.map (fun r => r.search_order) =
      List.range (step_search cfg env st).results.length := by
  simp [step_search, evaluate_candidate, List.range_succ, h]

/-- The loop preserves the dense `search_order` invariant. -/
theorem loop_search_order (cfg : Config) (env : SearchEnv) :
    ∀ (fuel : ℕ) (st : SearchState),
      st.results.map (fun r => r.search_order) = List.range st.results.length →
      (run_search_loop cfg env fuel st).results.map (fun r => r.search_order) =
        List.range (run_search_loop cfg env fuel st).results.length := by
  intro fuel
  induction fuel with
  | zero =>
    intro st h
    simpa [run_search_loop] using h
  | succ f ih =>
    intro st h
    rw [run_search_loop]
    by_cases hc : check_stopping_condition cfg st = true
    · rw [if_pos (by simp [hc])]
      exact h
    · rw [if_neg (by simp at hc; simp [hc])]
      exact ih (step_search cfg env st) (step_search_order cfg env st h)

/-- C6: a search configured with only `max_pipelines = N` (N ≥ 1) and
enough fuel records exactly N results whose `search_order` values are
exactly `0, 1, ..., N-1`: strictly increasing, dense, one id per result. -/
theorem C6_max_pipelines (cfg : Config) (env : SearchEnv) (N fuel : ℕ)
    (hN : cfg.max_pipelines = some N) (hmt : cfg.max_time = none)
    (hpat : cfg.patience = none) (h1 : 1 ≤ N) (hfuel : N ≤ fuel) :
    (run_search cfg env fuel).results.length = N ∧
    (run_search cfg env fuel).results.map (fun r => r.search_order) = List.range N := by
  have hlen : (run_search cfg env fuel).results.length = N := by
    rw [run_search, loop_length_max_pipelines cfg env N hN hmt hpat h1 fuel init_state
      (by simp [init_state])]
    show min N (List.length [] + fuel) = N
    simp
    omega
  refine ⟨hlen, ?_⟩
  have hord := loop_search_order cfg env fuel init_state (by simp [init_state])
  rw [run_search] at hlen ⊢
  rw [hord, hlen]

/-- Witness for C6 with `N = 2` and fuel 3. -/
theorem C6_max_pipelines_witness :
    (run_search { default_config precision_obj with max_pipelines := some 2 } unit_env 3).results.length = 2 ∧
    (run_search { default_config precision_obj with max_pipelines := some 2 } unit_env 3).results.map
        (fun r => r.search_order) = List.range 2 :=
  C6_max_pipelines { default_config precision_obj with max_pipelines := some 2 } unit_env 2 3
    rfl rfl rfl (by norm_num) (by norm_num)

/-- One step preserves the callback-log invariant: both logs record exactly
the generated pipeline classes, in candidate order. -/
theorem step_search_calls (cfg : Config) (env : SearchEnv) (st : SearchState)
    (h1 : st.start_calls = (List.range st.results.length).map env.gen)
    (h2 : st.result_calls = st.start_calls) :
    (step_search cfg env st).start_calls =
      (List.range (step_search cfg env st).results.length).map env.gen ∧
    (step_search cfg env st).result_calls = (step_search cfg env st).start_calls := by
  constructor <;> simp [step_search, List.range_succ, h1, h2]

/-- The loop preserves the callback-log invariant. -/
theorem loop_calls (cfg : Config) (env : SearchEnv) :
    ∀ (fuel : ℕ) (st : SearchState),
      st.start_calls = (List.range st.results.length).map env.gen →
      st.result_calls = st.start_calls →
      (run_search_loop cfg env fuel st).start_calls =
        (List.range (run_search_loop cfg env fuel st).results.length).map env.gen ∧
      (run_search_loop cfg env fuel st).result_calls =
        (run_search_loop cfg env fuel st).start_calls := by
  intro fuel
  induction fuel with
  | zero =>
    intro st h1 h2
    exact ⟨by simpa [run_search_loop] using h1, by simpa [run_search_loop] using h2⟩
  | succ f ih =>
    intro st h1 h2
    rw [run_search_loop]
    by_cases hc : check_stopping_condition cfg st = true
    · rw [if_pos (by simp [hc])]
      exact ⟨h1, h2⟩
    · rw [if_neg (by simp at hc; simp [hc])]
      obtain ⟨g1, g2⟩ := step_search_calls cfg env st h1 h2
      exact ih (step_search cfg env st) g1 g2

/-- C7: on every completed run, the `start_iteration_callback` and
`add_result_callback` invocation logs have the same length as the recorded
results (call counts agree with the number of completed candidates), the
two logs list the same pipeline classes in the same order, the sequence of
classes is exactly the candidate sequence, and the first callback pair's
class is the baseline pipeline class, with the remaining allowed pipelines
following it. -/
theorem C7_callbacks (cfg : Config) (env : SearchEnv) (fuel : ℕ)
    (baseline : PipelineClass) (allowed : List PipelineClass)
    (hgen : env.gen = candidate_sequence baseline allowed) :
    (run_search cfg env fuel).start_calls.length = (run_search cfg env fuel).results.length ∧
    (run_search cfg env fuel).result_calls = (run_search cfg env fuel).start_calls ∧
    (run_search cfg env fuel).start_calls =
      (List.range (run_search cfg env fuel).results.length).map
        (candidate_sequence baseline allowed) ∧
    (0 < (run_search cfg env fuel).results.length →
      (run_search cfg env fuel).start_calls.head? = some baseline) := by
  obtain ⟨h1, h2⟩ := loop_calls cfg env fuel init_state (by simp [init_state]) rfl
  rw [run_search] at *
  refine ⟨by rw [h1]; simp, h2, by rw [h1, hgen], ?_⟩
  intro hpos
  obtain ⟨m, hm⟩ : ∃ m, (run_search_loop cfg env fuel init_state).results.length = m + 1 :=
    ⟨(run_search_loop cfg env fuel init_state).results.length - 1, by omega⟩
  rw [h1, hm, List.range_succ_eq_map]
  simp [hgen, candidate_sequence]

/-- Witness for C7: a concrete two-candidate run whose generator starts at
the baseline class. -/
theorem C7_callbacks_witness :
    (run_search (default_config precision_obj) unit_env 1).start_calls.length =
      (run_search (default_config precision_obj) unit_env 1).results.length ∧
    (run_search (default_config precision_obj) unit_env 1).result_calls =
      (run_search (default_config precision_obj) unit_env 1).start_calls ∧
    (run_search (default_config precision_obj) unit_env 1).start_calls =
      (List.range (run_search (default_config precision_obj) unit_env 1).results.length).map
        (candidate_sequence ModeBaselineBinaryPipeline [LogisticRegressionBinaryPipeline]) ∧
    (run_search (default_config precision_obj) unit_env 1).start_calls.head? =
      some ModeBaselineBinaryPipeline := by
  obtain ⟨h1, h2, h3, h4⟩ :=
    C7_callbacks (default_config precision_obj) unit_env 1 ModeBaselineBinaryPipeline
      [LogisticRegressionBinaryPipeline] rfl
  exact ⟨h1, h2, h3, h4 (by decide)⟩

/-- `better_of` returns one of its two arguments. -/
theorem better_of_eq_or (gib : Bool) (a b : CandidateResult) :
    better_of gib a b = a ∨ better_of gib a b = b := by
  unfold better_of
  split <;> split
  · exact Or.inr rfl
  · exact Or.inl rfl
  · exact Or.inr rfl
  · exact Or.inl rfl

/-- A fold of `better_of` lands on the accumulator or on a list element. -/
theorem foldl_better_mem (gib : Bool) :
    ∀ (l : List CandidateResult) (acc : CandidateResult),
      l.foldl (better_of gib) acc = acc ∨ l.foldl (better_of gib) acc ∈ l := by
  intro l
  induction l with
  | nil => exact fun _ => Or.inl rfl
  | cons x xs ih =>
    intro acc
    rw [List.foldl_cons]
    rcases ih (better_of gib acc x) with h | h
    · rw [h]
      rcases better_of_eq_or gib acc x with h' | h'
      · exact Or.inl h'
      · rw [h']
        exact Or.inr (List.mem_cons_self x xs)
    · exact Or.inr (List.mem_cons_of_mem x h)

/-- The best recorded candidate is one of the recorded candidates. -/
theorem best_result_mem (gib : Bool) (l : List CandidateResult) (r : CandidateResult)
    (h : best_result gib l = Except.ok r) : r ∈ l := by
  cases l with
  | nil => simp [best_result] at h
  | cons x xs =>
    simp only [best_result, Except.ok.injEq] at h
    rcases foldl_better_mem gib xs x with h' | h'
    · rw [← h, h']
      exact List.mem_cons_self x xs
    · rw [← h]
      exact List.mem_cons_of_mem x h'

/-- Every result the loop records was produced by `evaluate_candidate`. -/
theorem mem_loop_results (cfg : Config) (env : SearchEnv) :
    ∀ (fuel : ℕ) (st : SearchState) (r : CandidateResult),
      r ∈ (run_search_loop cfg env fuel st).results →
      r ∈ st.results ∨ ∃ i, r = evaluate_candidate cfg env i := by
  intro fuel
  induction fuel with
  | zero =>
    intro st r h
    rw [run_search_loop] at h
    exact Or.inl h
  | succ f ih =>
    intro st r h
    rw [run_search_loop] at h
    by_cases hc : check_stopping_condition cfg st = true
    · rw [if_pos (by simp [hc])] at h
      exact Or.inl h
    · rw [if_neg (by simp at hc; simp [hc])] at h
      rcases ih (step_search cfg env st) r h with hmem | hex
      · simp only [step_search, List.mem_append, List.mem_singleton] at hmem
        rcases hmem with h' | h'
        · exact Or.inl h'
        · exact Or.inr ⟨st.results.length, h'⟩
      · exact Or.inr hex

/-- C8: in a binary-classification run, when `optimize_thresholds` is on
and the objective supports threshold optimization, the best pipeline's
threshold equals the value returned by the threshold-optimization step and
`predict_proba`/the optimizer were invoked; when the flag is off or the
objective does not support it, neither is invoked and the threshold stays
0.5. -/
theorem C8_threshold_optimization (cfg : Config) (env : SearchEnv) (fuel : ℕ)
    (r : CandidateResult)
    (hbest : best_result cfg.objective.greater_is_better
      (run_search cfg env fuel).results = Except.ok r) :
    ((cfg.optimize_thresholds && cfg.objective.can_optimize_threshold) = true →
      r.threshold = env.opt_threshold r.search_order ∧
      r.proba_called = true ∧ r.optimizer_called = true) ∧
    ((cfg.optimize_thresholds && cfg.objective.can_optimize_threshold) = false →
      r.threshold = 1 / 2 ∧ r.proba_called = false ∧ r.optimizer_called = false) := by
  have hmem := best_result_mem _ _ _ hbest
  rcases mem_loop_results cfg env fuel init_state r hmem with hin | ⟨i, rfl⟩
  · simp [init_state] at hin
  · constructor <;> intro hflag <;>
      cases hopt : cfg.optimize_thresholds <;>
      cases hcan : cfg.objective.can_optimize_threshold <;>
      simp_all [evaluate_candidate, tune_threshold]

/-- Witness for C8: a one-candidate run with an optimizable objective and
the flag on; the best pipeline's threshold is the optimizer's 4/5. -/
theorem C8_threshold_optimization_witness :
    tuned_best.threshold = unit_env.opt_threshold tuned_best.search_order ∧
    tuned_best.proba_called = true ∧ tuned_best.optimizer_called = true :=
  (C8_threshold_optimization (default_config precision_obj) unit_env 1 tuned_best rfl).1 rfl

/-- C2 counterexample: the `test_multi_error` configuration — a multiclass
search whose additional objective `precision` is binary-only, hence an
objective incompatible with the search's problem type — is accepted at
construction: no ConfigurationError is raised there, contradicting the
claim that every such invalid configuration fails synchronously at
construction. -/
theorem C2_counterexample :
    is_ok (validate_params multi_error_params) = true ∧
    resolve_objective_list multi_error_params.additional_objectives =
      Except.ok [precision_obj] ∧
    compatible precision_obj multi_error_params.problem_type = false :=
  ⟨rfl, rfl, rfl⟩

/-- C2 (amended): non-positive `patience`, out-of-range `tolerance`, an
unregistered objective name, and an invalid `max_time` each raise a
ConfigurationError synchronously at construction; an objective
incompatible with the search's problem type instead raises when `search`
is invoked on the data, before any candidate is evaluated (construction
itself succeeds on such a configuration). -/
theorem C2_configuration_errors (p : SearchParams) :
    ((∃ k, p.patience = some k ∧ k ≤ 0) → is_ok (validate_params p) = false) ∧
    ((∃ t, p.tolerance = some t ∧ (t < 0 ∨ 1 < t)) → is_ok (validate_params p) = false) ∧
    ((∃ s, p.objective = ObjectiveRef.byName s ∧ is_ok (get_objective s) = false) →
      is_ok (validate_params p) = false) ∧
    ((∃ v, p.max_time = some v ∧ is_ok (parse_max_time (some v)) = false) →
      is_ok (validate_params p) = false) ∧
    (∀ (cfg : Config) (env : SearchEnv) (fuel : ℕ), validate_params p = Except.ok cfg →
      (cfg.objective :: cfg.additional_objectives).any
        (fun o => !(compatible o env.data_problem_type)) = true →
      is_ok (search cfg env fuel) = false) := by
  refine ⟨?_, ?_, ?_, ?_, ?_⟩
  · rintro ⟨k, hk, hk0⟩
    have hpat : validate_patience p.patience =
        Except.error (ConfigError.nonPositivePatience k) := by
      rw [hk]
      simp [validate_patience, hk0]
    simp only [validate_params]
    cases h1 : resolve_objective p.objective with
    | error e => simp [is_ok]
    | ok obj =>
      cases h2 : resolve_objective_list p.additional_objectives with
      | error e => simp [is_ok]
      | ok addl =>
        cases h3 : parse_max_time p.max_time with
        | error e => simp [is_ok]
        | ok mt => simp [hpat, is_ok]
  · rintro ⟨t, ht, htr⟩
    have htol : validate_tolerance p.tolerance =
        Except.error (ConfigError.outOfRangeTolerance t) := by
      rw [ht]
      simp [validate_tolerance, htr]
    simp only [validate_params]
    cases h1 : resolve_objective p.objective with
    | error e => simp [is_ok]
    | ok obj =>
      cases h2 : resolve_objective_list p.additional_objectives with
      | error e => simp [is_ok]
      | ok addl =>
        cases h3 : parse_max_time p.max_time with
        | error e => simp [is_ok]
        | ok mt =>
          cases h4 : validate_patience p.patience with
          | error e => simp [is_ok]
          | ok pat => simp [htol, is_ok]
  · rintro ⟨s, hs, hno⟩
    have hres : ∃ e, resolve_objective p.objective = Except.error e := by
      rw [hs]
      cases hg : get_objective s with
      | error e => exact ⟨e, by simp [resolve_objective, hg]⟩
      | ok o =>
        rw [hg] at hno
        simp [is_ok] at hno
    obtain ⟨e, he⟩ := hres
    simp only [validate_params]
    simp [he, is_ok]
  · rintro ⟨v, hv, hbad⟩
    simp only [validate_params]
    cases h1 : resolve_objective p.objective with
    | error e => simp [is_ok]
    | ok obj =>
      cases h2 : resolve_objective_list p.additional_objectives with
      | error e => simp [is_ok]
      | ok addl =>
        have hmt : ∃ e, parse_max_time p.max_time = Except.error e := by
          rw [hv]
          cases hp : parse_max_time (some v) with
          | error e => exact ⟨e, rfl⟩
          | ok mt =>
            rw [hp] at hbad
            simp [is_ok] at hbad
        obtain ⟨e, he⟩ := hmt
        simp [he, is_ok]
  · intro cfg env fuel _hok hany
    have hfind : ∃ o, (cfg.objective :: cfg.additional_objectives).find?
        (fun o => !(compatible o env.data_problem_type)) = some o := by
      rw [← Option.isSome_iff_exists]
      rw [List.find?_isSome]
      rcases List.any_eq_true.mp hany with ⟨o, ho, hpo⟩
      exact ⟨o, ho, hpo⟩
    obtain ⟨o, hfind⟩ := hfind
    simp [search, hfind, is_ok]

/-- Witness for the amended C2: concrete constructions from the test suite
fail for bad patience, tolerance, objective name and `max_time` type, and
the incompatible-objective configuration of `test_multi_error` fails at
search time. -/
theorem C2_configuration_errors_witness :
    is_ok (validate_params bad_patience_params) = false ∧
    is_ok (validate_params bad_tolerance_params) = false ∧
    is_ok (validate_params recall_params) = false ∧
    is_ok (validate_params tuple_max_time_params) = false ∧
    is_ok (search multi_error_config multiclass_env 5) = false :=
  ⟨(C2_configuration_errors bad_patience_params).1 ⟨-1, rfl, by decide⟩,
   (C2_configuration_errors bad_tolerance_params).2.1 ⟨3 / 2, rfl, Or.inr (by norm_num)⟩,
   (C2_configuration_errors recall_params).2.2.1 ⟨"recall", rfl, rfl⟩,
   (C2_configuration_errors tuple_max_time_params).2.2.2.1
     ⟨PyValue.tuple (PyValue.int 30) (PyValue.str "minutes"), rfl, rfl⟩,
   (C2_configuration_errors multi_error_params).2.2.2.2 multi_error_config multiclass_env 5
     rfl rfl⟩
